import Mathlib

/-!
Verification of the qtnodes node-graph editor core (src/restart.py).

The Python source is shallowly embedded as follows.

Scene geometry is modelled over the rationals: Qt performs the relevant
arithmetic (scene coordinates, zoom factors, bezier control points) in
IEEE doubles, and every claim under scrutiny concerns exact products and
sums of small decimal constants, which the rational model reproduces.

Object identity in Python (Knob and Edge instances, sets keyed by
identity) is modelled by natural-number ids.  A World holds the state of
all Edge and Knob objects as total functions from ids; Edge allocation
draws a fresh id from a counter.  Python sets of objects are modelled as
duplicate-free lists of ids: set.add appends when absent, set.remove
erases and raises KeyError when absent.

Host-toolkit primitives (font metrics, the scene item store, event
delivery) are external collaborators: text measurement is an arbitrary
function parameter, scene membership of an Edge is a boolean flag, and
the item under the pointer is an input to the event filter.
-/

namespace QtNodes

/-- Module-level flow constant, restart.py line 5. -/
def FLOW_LEFT_TO_RIGHT : String := "flow_left_to_right"

/-- Module-level flow constant, restart.py line 6. -/
def FLOW_RIGHT_TO_LEFT : String := "flow_right_to_left"

/-- A scene-space point (QPointF), with coordinates as exact rationals. -/
structure Point where
  x : ℚ
  y : ℚ
  deriving DecidableEq, Repr

/-- A cubic bezier path as produced by moveTo-then-cubicTo on a
QPainterPath: start point, two control points, end point. -/
structure CubicPath where
  start : Point
  ctrl1 : Point
  ctrl2 : Point
  stop : Point
  deriving DecidableEq, Repr

/-- Python exceptions that the embedded code can raise.  keyError is the
builtin KeyError raised by set.remove; unknownFlowError is the
UnknownFlowError class of restart.py line 15; typeError is the builtin
TypeError for ill-typed arithmetic.  notConnectedError is Modelled from
the spec: section 7 of the spec names a NotConnectedError for
disconnecting an unregistered Connection, but the source defines no such
exception class; the constructor exists only so that the spec claim
about it can be stated and compared against the code. -/
inductive PyErr where
  | keyError
  | unknownFlowError
  | typeError
  | notConnectedError
  deriving DecidableEq, Repr

/-- A dynamically typed Python value (only the shapes the claims need:
integers and strings). -/
inductive PyVal where
  | int : Int → PyVal
  | str : String → PyVal
  deriving DecidableEq, Repr

/-- Pointwise update of a total function from ids, modelling an
attribute assignment on one Python object. -/
def upd {α : Type} (f : Nat → α) (i : Nat) (v : α) : Nat → α :=
  fun j => if j = i then v else f j

/-- State of one Edge object (restart.py lines 154-172).  knob1/knob2
are ids of bound Knobs (None when unbound), pos1/pos2 the cached
endpoint positions, path the last painter path set by updatePath,
inScene whether the scene currently holds the item. -/
structure EdgeData where
  thickness : ℚ
  knob1 : Option Nat
  knob2 : Option Nat
  pos1 : Point
  pos2 : Point
  curv1 : ℚ
  curv3 : ℚ
  curv2 : ℚ
  curv4 : ℚ
  path : Option CubicPath
  inScene : Bool
  deriving DecidableEq, Repr

/-- Edge.__init__ (restart.py lines 154-172): thickness is 1 times the
module-level CURRENT_ZOOM read at construction time; both knobs unbound;
positions zeroed; the four fixed curvature coefficients. -/
def Edge.init (currentZoom : ℚ) : EdgeData :=
  { thickness := 1 * currentZoom
    knob1 := none
    knob2 := none
    pos1 := ⟨0, 0⟩
    pos2 := ⟨0, 0⟩
    curv1 := 6/10
    curv3 := 4/10
    curv2 := 2/10
    curv4 := 8/10
    path := none
    inScene := false }

/-- State of one Knob object as far as path geometry and connection
topology are concerned: the local bounding rectangle (restart.py lines
79-84), the item's accumulated scene translation (its own position plus
its parent Node's, so that mapToScene adds origin to a local point), and
the set of attached edge ids (self.edges, restart.py line 49). -/
structure KnobData where
  x : Int
  y : Int
  w : Int
  h : Int
  origin : Point
  edges : List Nat
  deriving DecidableEq, Repr

/-- Knob geometry defaults from Knob.__init__ (restart.py lines 38-41)
with an empty edge set and the item at the scene origin. -/
def Knob.defaultData : KnobData :=
  { x := 0, y := 0, w := 10, h := 10, origin := ⟨0, 0⟩, edges := [] }

/-- The whole mutable state the connection machinery touches: the
module-level CURRENT_ZOOM (restart.py line 8), the view transform's
horizontal scale m11, the Edge allocation counter, and the state of
every Edge and Knob object by id. -/
structure World where
  currentZoom : ℚ
  m11 : ℚ
  nextEdgeId : Nat
  edges : Nat → EdgeData
  knobs : Nat → KnobData

/-- Initial world: CURRENT_ZOOM = 1.0 (restart.py line 8), identity view
transform, no edges allocated, every knob in its default state. -/
def World.empty : World :=
  { currentZoom := 1
    m11 := 1
    nextEdgeId := 0
    edges := fun _ => Edge.init 1
    knobs := fun _ => Knob.defaultData }

/-- Allocation of a fresh Edge object (the Python expression Edge()):
returns the world with the new edge initialised from the current zoom,
and the new edge's id. -/
def World.newEdge (w : World) : World × Nat :=
  ({ w with
      nextEdgeId := w.nextEdgeId + 1
      edges := upd w.edges w.nextEdgeId (Edge.init w.currentZoom) },
   w.nextEdgeId)

/-- Attribute assignment edge.knob1 = knob. -/
def Edge.setKnob1 (w : World) (eid : Nat) (kid : Nat) : World :=
  { w with edges := upd w.edges eid { w.edges eid with knob1 := some kid } }

/-- Attribute assignment edge.knob2 = knob. -/
def Edge.setKnob2 (w : World) (eid : Nat) (kid : Nat) : World :=
  { w with edges := upd w.edges eid { w.edges eid with knob2 := some kid } }

/-- Attribute assignment edge.pos2 = scenePos. -/
def Edge.setPos2 (w : World) (eid : Nat) (p : Point) : World :=
  { w with edges := upd w.edges eid { w.edges eid with pos2 := p } }

/-- Horizontal coordinate of QRect(x, y, w, h).center(): Qt returns
QPoint((left + right) / 2, ...) with right = x + w - 1 and C++ integer
division (truncation toward zero, matching Int.div). -/
def rectCenterX (x w : Int) : Int :=
  Int.tdiv (x + (x + w - 1)) 2

/-- Vertical coordinate of QRect(x, y, w, h).center(). -/
def rectCenterY (y h : Int) : Int :=
  Int.tdiv (y + (y + h - 1)) 2

/-- The scene-space anchor of a knob, as computed in Edge.updatePath
(restart.py lines 179-185): the knob's bounding-rect center mapped to
scene coordinates, i.e. the item's scene translation plus the center of
QRect(x, y, w, h). -/
def knobAnchor (w : World) (kid : Nat) : Point :=
  let kd := w.knobs kid
  ⟨kd.origin.x + ((rectCenterX kd.x kd.w : Int) : ℚ),
   kd.origin.y + ((rectCenterY kd.y kd.h : Int) : ℚ)⟩

/-- The painter path built by Edge.updatePath (restart.py lines
187-198) from the two endpoint positions, using the edge's stored
curvature coefficients. -/
def Edge.buildPath (e : EdgeData) (p1 p2 : Point) : CubicPath :=
  let dx := p2.x - p1.x
  let dy := p2.y - p1.y
  { start := p1
    ctrl1 := ⟨p1.x + dx * e.curv1, p1.y + dy * e.curv2⟩
    ctrl2 := ⟨p1.x + dx * e.curv3, p1.y + dy * e.curv4⟩
    stop := p2 }

/-- Edge.updatePath (restart.py lines 174-198): refresh pos1 from knob1
and pos2 from knob2 when bound (leaving the cached position otherwise),
then set the path to the cubic built from the refreshed positions. -/
def Edge.updatePath (w : World) (eid : Nat) : World :=
  let e := w.edges eid
  let p1 := match e.knob1 with
    | some k => knobAnchor w k
    | none => e.pos1
  let p2 := match e.knob2 with
    | some k => knobAnchor w k
    | none => e.pos2
  { w with
      edges := upd w.edges eid
        { e with pos1 := p1, pos2 := p2, path := some (Edge.buildPath e p1 p2) } }

/-- Knob.addEdge (restart.py lines 109-113): add the edge to this knob's
set (a no-op when already present), then add it to the scene unless the
scene already holds it. -/
def Knob.addEdge (w : World) (kid : Nat) (eid : Nat) : World :=
  let kd := w.knobs kid
  let w1 := { w with
    knobs := upd w.knobs kid
      { kd with edges := if eid ∈ kd.edges then kd.edges else kd.edges ++ [eid] } }
  let e := w1.edges eid
  if e.inScene then w1
  else { w1 with edges := upd w1.edges eid { e with inScene := true } }

/-- Knob.removeEdge (restart.py lines 115-117): self.edges.remove(edge)
raises the builtin KeyError when the edge is not in the set; otherwise
the edge is removed from the set and from the scene. -/
def Knob.removeEdge (w : World) (kid : Nat) (eid : Nat) : Except PyErr World :=
  let kd := w.knobs kid
  if eid ∈ kd.edges then
    let w1 := { w with knobs := upd w.knobs kid { kd with edges := kd.edges.erase eid } }
    let e := w1.edges eid
    .ok { w1 with edges := upd w1.edges eid { e with inScene := false } }
  else
    .error .keyError

/-- Knob.connectTo (restart.py lines 119-131): early return when the
argument is this very knob; otherwise allocate an Edge, bind knob1 to
self and knob2 to the other knob, register the edge on both knobs, and
recompute its path. -/
def Knob.connectTo (w : World) (self other : Nat) : World :=
  if other = self then w
  else
    let pair := World.newEdge w
    let w1 := pair.1
    let eid := pair.2
    let w2 := Edge.setKnob1 w1 eid self
    let w3 := Edge.setKnob2 w2 eid other
    let w4 := Knob.addEdge w3 self eid
    let w5 := Knob.addEdge w4 other eid
    Edge.updatePath w5 eid

/-- The scene item resolved under the pointer: either a Knob (by id) or
some other graphics item. -/
inductive HitItem where
  | knob : Nat → HitItem
  | other : HitItem
  deriving DecidableEq, Repr

/-- Whether the hit-test result is a Knob (the isinstance(item, Knob)
checks of the event filter). -/
def isKnobHit : Option HitItem → Bool
  | some (.knob _) => true
  | _ => false

/-- A scene event as seen by SceneEventHandler.eventFilter: a mouse
press (with button, scene position and the item under the pointer), a
mouse move (with scene position), or a mouse release (with the item
under the pointer). -/
inductive SceneEvent where
  | press : Bool → Point → Option HitItem → SceneEvent
  | move : Point → SceneEvent
  | release : Option HitItem → SceneEvent

/-- SceneEventHandler.eventFilter (restart.py lines 520-579).  The
handler's transient state self.temp is none (Idle) or some (edgeId,
knobId) (an in-flight draft connection started on that knob); the result
carries the successor state and world, or the Python exception that
propagated out. -/
def SceneEventHandler.eventFilter (temp : Option (Nat × Nat)) (w : World)
    (ev : SceneEvent) : Except PyErr (Option (Nat × Nat) × World) :=
  match ev with
  | .release item =>
    match temp with
    | some (eid, startKid) =>
      match item with
      | some (.knob kid) =>
        if kid = startKid then
          match Knob.removeEdge w startKid eid with
          | .ok w1 => .ok (none, w1)
          | .error e => .error e
        else
          let w1 := Knob.addEdge w kid eid
          let w2 := Edge.setKnob2 w1 eid kid
          let w3 := Edge.updatePath w2 eid
          .ok (none, w3)
      | _ =>
        match Knob.removeEdge w startKid eid with
        | .ok w1 => .ok (none, w1)
        | .error e => .error e
    | none => .ok (temp, w)
  | .press leftButton pos item =>
    match item with
    | some (.knob kid) =>
      if leftButton then
        let pair := World.newEdge w
        let w1 := pair.1
        let eid := pair.2
        let w2 := Edge.setKnob1 w1 eid kid
        let w3 := Edge.setPos2 w2 eid pos
        let w4 := Edge.updatePath w3 eid
        let w5 := Knob.addEdge w4 kid eid
        .ok (some (eid, kid), w5)
      else .ok (temp, w)
    | _ => .ok (temp, w)
  | .move pos =>
    match temp with
    | some (eid, _) =>
      let w1 := Edge.setPos2 w eid pos
      let w2 := Edge.updatePath w1 eid
      .ok (temp, w2)
    | none => .ok (temp, w)

/-- Run a sequence of scene events through the event filter, stopping at
the first propagated exception. -/
def runEvents (temp : Option (Nat × Nat)) (w : World) :
    List SceneEvent → Except PyErr (Option (Nat × Nat) × World)
  | [] => .ok (temp, w)
  | ev :: rest =>
    match SceneEventHandler.eventFilter temp w ev with
    | .ok (t1, w1) => runEvents t1 w1 rest
    | .error e => .error e

/-- GridView zoomStep (restart.py line 451). -/
def GridView.zoomStep : ℚ := 11/10

/-- GridView.wheelEvent (restart.py lines 458-468): scale the view
transform by zoomStep (or its reciprocal for a negative delta) and
publish the transform's horizontal scale as the module-level
CURRENT_ZOOM. -/
def GridView.wheelEvent (w : World) (delta : Int) : World :=
  let zoom := if 0 ≤ delta then GridView.zoomStep else 1 / GridView.zoomStep
  let m := w.m11 * zoom
  { w with m11 := m, currentZoom := m }

/-! ### Node layout (Header, Node.updateSizeForChildren, addHeader, addKnob)

Text measurement (getTextSize, restart.py lines 19-30) is a host
font-metrics primitive; it enters the layout model as an arbitrary
function from the string to its natural pixel width. -/

/-- A Header as far as layout is concerned (restart.py lines 206-214):
its text and its fixed height (default 20). -/
structure HeaderL where
  text : String
  h : Int
  deriving DecidableEq, Repr

/-- A child Knob as far as its parent Node's layout is concerned: its
rectangle width and height and its label text. -/
structure KnobL where
  w : Int
  h : Int
  labelText : String
  deriving DecidableEq, Repr

/-- A Node as far as layout is concerned (restart.py lines 255-266):
width, height, margin, the bound Header (None until addHeader), and its
child knobs in insertion order. -/
structure NodeL where
  w : Int
  h : Int
  margin : Int
  header : Option HeaderL
  knobs : List KnobL
  deriving DecidableEq, Repr

/-- Node.__init__ layout defaults (restart.py lines 258-265). -/
def Node.init : NodeL :=
  { w := 10, h := 10, margin := 6, header := none, knobs := [] }

/-- Node.updateSizeForChildren (restart.py lines 295-317).  adjustWidth:
the new width is max(margin + headerTextWidth, knob.w + margin +
knobLabelWidth over all knobs) plus one trailing margin.  adjustHeight:
the new height is header.h + sum(knob.h + margin) + margin.  Accessing
self.header.text with no header bound raises (modelled as none). -/
def Node.updateSizeForChildren (tw : String → Int) (n : NodeL) : Option NodeL :=
  match n.header with
  | none => none
  | some hd =>
    let headerWidth := n.margin + tw hd.text
    let knobWidths := n.knobs.map (fun k => k.w + n.margin + tw k.labelText)
    let maxWidth := knobWidths.foldl max headerWidth
    let knobsHeight := (n.knobs.map (fun k => k.h + n.margin)).sum
    let heightNeeded := hd.h + knobsHeight + n.margin
    some { n with w := maxWidth + n.margin, h := heightNeeded }

/-- Node.addHeader (restart.py lines 319-323): bind the header (last
wins), then relayout. -/
def Node.addHeader (tw : String → Int) (n : NodeL) (hd : HeaderL) : Option NodeL :=
  Node.updateSizeForChildren tw { n with header := some hd }

/-- Node.addKnob (restart.py lines 325-338): parent the knob (appending
it to the child sequence), then relayout.  The subsequent setPos of the
knob does not affect the node's width or height. -/
def Node.addKnob (tw : String → Int) (n : NodeL) (k : KnobL) : Option NodeL :=
  Node.updateSizeForChildren tw { n with knobs := n.knobs ++ [k] }

/-- A concrete text-measurement function used for closed evaluations:
one pixel per character. -/
def twLen (s : String) : Int := s.length

/-- The width formula asserted by the spec, written from its words for
comparison with Node.updateSizeForChildren: margin + max(titleWidth, max
over sockets of (socket.width + margin + labelWidth)) + margin, given
the title width and the per-socket terms. -/
def claimWidthC1 (margin titleWidth : Int) (socketTerms : List Int) : Int :=
  margin + socketTerms.foldl max titleWidth + margin

/-! ### Knob construction and paint-time flow dispatch -/

/-- The keyword arguments of Knob.__init__ the claims exercise.  The
margin kwarg is kept dynamically typed because line 43 of restart.py
stores its value into self.flow, where a string is expected. -/
structure KnobKwargs where
  x : Option Int := none
  y : Option Int := none
  w : Option Int := none
  h : Option Int := none
  margin : Option PyVal := none
  labelText : Option String := none
  flow : Option PyVal := none

/-- The attributes Knob.__init__ leaves on the object. -/
structure KnobCtor where
  x : Int
  y : Int
  w : Int
  h : Int
  margin : PyVal
  flow : PyVal
  labelText : String
  deriving DecidableEq, Repr

/-- Knob.__init__ (restart.py lines 36-53).  Line 42 reads the margin
kwarg (default 5); line 43 reads the margin kwarg again, with
FLOW_LEFT_TO_RIGHT as the default, and stores it into self.flow. -/
def Knob.init (kw : KnobKwargs) : KnobCtor :=
  { x := kw.x.getD 0
    y := kw.y.getD 0
    w := kw.w.getD 10
    h := kw.h.getD 10
    margin := kw.margin.getD (.int 5)
    flow := kw.margin.getD (.str FLOW_LEFT_TO_RIGHT)
    labelText := kw.labelText.getD "value" }

/-- InputKnob.__init__ (restart.py lines 136-139): run Knob.__init__,
then overwrite labelText (default "input") and the fill color; flow is
left as the base constructor set it. -/
def InputKnob.init (kw : KnobKwargs) : KnobCtor :=
  let k := Knob.init kw
  { k with labelText := kw.labelText.getD "input" }

/-- OutputKnob.__init__ (restart.py lines 144-148): run Knob.__init__,
then overwrite labelText (default "output") and flow from the flow
kwarg (default FLOW_RIGHT_TO_LEFT). -/
def OutputKnob.init (kw : KnobKwargs) : KnobCtor :=
  let k := Knob.init kw
  { k with
      labelText := kw.labelText.getD "output"
      flow := kw.flow.getD (.str FLOW_RIGHT_TO_LEFT) }

/-- Python binary + on dynamically typed values (ints add, strings
concatenate, mixes raise TypeError). -/
def pyAdd : PyVal → PyVal → Except PyErr PyVal
  | .int m, .int n => .ok (.int (m + n))
  | .str s, .str t => .ok (.str (s ++ t))
  | _, _ => .error .typeError

/-- Python binary - on dynamically typed values. -/
def pySub : PyVal → PyVal → Except PyErr PyVal
  | .int m, .int n => .ok (.int (m - n))
  | _, _ => .error .typeError

/-- The flow dispatch of Knob.paint (restart.py lines 96-107): the x
position of the text label is bbox.right() + margin for left-to-right
flow, bbox.left() - margin - textWidth for right-to-left flow, and any
other value of self.flow raises UnknownFlowError.  QRect.right() is
x + w - 1. -/
def Knob.paintLabelX (k : KnobCtor) (textWidth : Int) : Except PyErr PyVal :=
  if k.flow = .str FLOW_LEFT_TO_RIGHT then
    pyAdd (.int (k.x + k.w - 1)) k.margin
  else if k.flow = .str FLOW_RIGHT_TO_LEFT then
    match pySub (.int k.x) k.margin with
    | .ok v => pySub v (.int textWidth)
    | .error e => .error e
  else
    .error .unknownFlowError

/-- A concrete node used to witness the layout theorem: margin 6, a
bound header titled "T" of height 20, no knobs yet. -/
def wNode : NodeL :=
  { w := 10, h := 10, margin := 6, header := some ⟨"T", 20⟩, knobs := [] }

/-- A concrete world used to witness the path theorems: edge 0 binds
knob 0 (at the scene origin) to knob 1 (translated to (100, 50)). -/
def wSeven : World :=
  { World.empty with
      nextEdgeId := 1
      edges := upd World.empty.edges 0
        { Edge.init 1 with knob1 := some 0, knob2 := some 1 }
      knobs := upd World.empty.knobs 1 { Knob.defaultData with origin := ⟨100, 50⟩ } }

/-! ### Helper lemmas about the operations -/

theorem upd_self {α : Type} (f : Nat → α) (i : Nat) (v : α) : upd f i v i = v := by
  simp [upd]

theorem upd_other {α : Type} (f : Nat → α) (i j : Nat) (v : α) (h : j ≠ i) :
    upd f i v j = f j := by
  simp [upd, h]

theorem erase_append_self (a : Nat) (l : List Nat) (h : a ∉ l) :
    (l ++ [a]).erase a = l := by
  induction l with
  | nil => simp
  | cons x xs ih =>
    simp only [List.mem_cons, not_or] at h
    simp only [List.cons_append, List.erase_cons]
    rw [if_neg (by simpa using Ne.symm h.1), ih h.2]

theorem addEdge_knobs (w : World) (kid eid : Nat) :
    (Knob.addEdge w kid eid).knobs = upd w.knobs kid
      { w.knobs kid with
          edges := if eid ∈ (w.knobs kid).edges then (w.knobs kid).edges
                   else (w.knobs kid).edges ++ [eid] } := by
  simp only [Knob.addEdge]
  split <;> rfl

theorem addEdge_edges_knob1 (w : World) (kid eid i : Nat) :
    ((Knob.addEdge w kid eid).edges i).knob1 = (w.edges i).knob1 := by
  simp only [Knob.addEdge]
  split
  · rfl
  · by_cases hi : i = eid <;> simp [upd, hi]

theorem addEdge_edges_knob2 (w : World) (kid eid i : Nat) :
    ((Knob.addEdge w kid eid).edges i).knob2 = (w.edges i).knob2 := by
  simp only [Knob.addEdge]
  split
  · rfl
  · by_cases hi : i = eid <;> simp [upd, hi]

theorem addEdge_edges_thickness (w : World) (kid eid i : Nat) :
    ((Knob.addEdge w kid eid).edges i).thickness = (w.edges i).thickness := by
  simp only [Knob.addEdge]
  split
  · rfl
  · by_cases hi : i = eid <;> simp [upd, hi]

theorem addEdge_nextEdgeId (w : World) (kid eid : Nat) :
    (Knob.addEdge w kid eid).nextEdgeId = w.nextEdgeId := by
  simp only [Knob.addEdge]
  split <;> rfl

theorem setKnob2_knobs (w : World) (eid kid : Nat) :
    (Edge.setKnob2 w eid kid).knobs = w.knobs := rfl

theorem setKnob2_edges_knob1 (w : World) (eid kid i : Nat) :
    ((Edge.setKnob2 w eid kid).edges i).knob1 = (w.edges i).knob1 := by
  by_cases hi : i = eid <;> simp [Edge.setKnob2, upd, hi]

theorem setKnob2_edges_knob2_self (w : World) (eid kid : Nat) :
    ((Edge.setKnob2 w eid kid).edges eid).knob2 = some kid := by
  simp [Edge.setKnob2, upd]

theorem setKnob2_edges_thickness (w : World) (eid kid i : Nat) :
    ((Edge.setKnob2 w eid kid).edges i).thickness = (w.edges i).thickness := by
  by_cases hi : i = eid <;> simp [Edge.setKnob2, upd, hi]

theorem updatePath_knobs (w : World) (eid : Nat) :
    (Edge.updatePath w eid).knobs = w.knobs := rfl

theorem updatePath_nextEdgeId (w : World) (eid : Nat) :
    (Edge.updatePath w eid).nextEdgeId = w.nextEdgeId := rfl

theorem updatePath_edges_knob1 (w : World) (eid i : Nat) :
    ((Edge.updatePath w eid).edges i).knob1 = (w.edges i).knob1 := by
  by_cases hi : i = eid <;> simp [Edge.updatePath, upd, hi]

theorem updatePath_edges_knob2 (w : World) (eid i : Nat) :
    ((Edge.updatePath w eid).edges i).knob2 = (w.edges i).knob2 := by
  by_cases hi : i = eid <;> simp [Edge.updatePath, upd, hi]

theorem updatePath_edges_thickness (w : World) (eid i : Nat) :
    ((Edge.updatePath w eid).edges i).thickness = (w.edges i).thickness := by
  by_cases hi : i = eid <;> simp [Edge.updatePath, upd, hi]

theorem removeEdge_spec (w : World) (kid eid : Nat) (h : eid ∈ (w.knobs kid).edges) :
    ∃ w1, Knob.removeEdge w kid eid = .ok w1
      ∧ (w1.knobs kid).edges = (w.knobs kid).edges.erase eid
      ∧ (∀ j, j ≠ kid → w1.knobs j = w.knobs j)
      ∧ w1.nextEdgeId = w.nextEdgeId := by
  simp only [Knob.removeEdge]
  rw [if_pos h]
  refine ⟨_, rfl, ?_, ?_, rfl⟩
  · simp [upd]
  · intro j hj
    simp [upd, hj]

theorem removeEdge_not_mem (w : World) (kid eid : Nat)
    (h : eid ∉ (w.knobs kid).edges) :
    Knob.removeEdge w kid eid = .error .keyError := by
  simp only [Knob.removeEdge]
  rw [if_neg h]

/-- Effect of a left-button press on a knob from the Idle state: a fresh
edge is allocated, bound to the pressed knob as knob1, registered in
that knob's set, and the handler enters the dragging state. -/
theorem eventFilter_press (w : World) (a : Nat) (p : Point)
    (hfr : w.nextEdgeId ∉ (w.knobs a).edges) :
    ∃ w5, SceneEventHandler.eventFilter none w
        (.press true p (some (.knob a))) = .ok (some (w.nextEdgeId, a), w5)
      ∧ (w5.knobs a).edges = (w.knobs a).edges ++ [w.nextEdgeId]
      ∧ (∀ j, j ≠ a → w5.knobs j = w.knobs j)
      ∧ (w5.edges w.nextEdgeId).knob1 = some a
      ∧ (w5.edges w.nextEdgeId).knob2 = none
      ∧ w5.nextEdgeId = w.nextEdgeId + 1 := by
  refine ⟨_, rfl, ?_, ?_, ?_, ?_, ?_⟩
  · simp [SceneEventHandler.eventFilter, World.newEdge, Edge.setKnob1, Edge.setPos2,
      Edge.updatePath, Knob.addEdge, Edge.init, upd, hfr]
  · intro j hj
    simp [SceneEventHandler.eventFilter, World.newEdge, Edge.setKnob1, Edge.setPos2,
      Edge.updatePath, Knob.addEdge, Edge.init, upd, hfr, hj]
  · simp [SceneEventHandler.eventFilter, World.newEdge, Edge.setKnob1, Edge.setPos2,
      Edge.updatePath, Knob.addEdge, Edge.init, upd, hfr]
  · simp [SceneEventHandler.eventFilter, World.newEdge, Edge.setKnob1, Edge.setPos2,
      Edge.updatePath, Knob.addEdge, Edge.init, upd, hfr]
  · simp [SceneEventHandler.eventFilter, World.newEdge, Edge.setKnob1, Edge.setPos2,
      Edge.updatePath, Knob.addEdge, Edge.init, upd, hfr]

/-- A mouse move never touches the knob states or an edge's endpoint
bindings, whatever the handler state. -/
theorem eventFilter_move (temp : Option (Nat × Nat)) (w : World) (p : Point) :
    ∃ w1, SceneEventHandler.eventFilter temp w (.move p) = .ok (temp, w1)
      ∧ w1.knobs = w.knobs
      ∧ w1.nextEdgeId = w.nextEdgeId
      ∧ ∀ i, (w1.edges i).knob1 = (w.edges i).knob1
           ∧ (w1.edges i).knob2 = (w.edges i).knob2 := by
  match temp with
  | none => exact ⟨w, rfl, rfl, rfl, fun i => ⟨rfl, rfl⟩⟩
  | some (eid, k) =>
    refine ⟨_, rfl, rfl, rfl, ?_⟩
    intro i
    by_cases hi : i = eid
    · subst hi
      exact ⟨by simp [Edge.setPos2, Edge.updatePath, upd],
        by simp [Edge.setPos2, Edge.updatePath, upd]⟩
    · exact ⟨by simp [Edge.setPos2, Edge.updatePath, upd, hi],
        by simp [Edge.setPos2, Edge.updatePath, upd, hi]⟩

/-- Any number of mouse moves leaves the dragging state, the knobs and
every edge's endpoint bindings untouched. -/
theorem runEvents_moves (ms : List Point) (eid k : Nat) (w : World) :
    ∃ w1, runEvents (some (eid, k)) w (ms.map SceneEvent.move) = .ok (some (eid, k), w1)
      ∧ w1.knobs = w.knobs
      ∧ w1.nextEdgeId = w.nextEdgeId
      ∧ ∀ i, (w1.edges i).knob1 = (w.edges i).knob1
           ∧ (w1.edges i).knob2 = (w.edges i).knob2 := by
  induction ms generalizing w with
  | nil => exact ⟨w, rfl, rfl, rfl, fun i => ⟨rfl, rfl⟩⟩
  | cons p ps ih =>
    obtain ⟨w1, h1, hk1, hn1, he1⟩ := eventFilter_move (some (eid, k)) w p
    obtain ⟨w2, h2, hk2, hn2, he2⟩ := ih w1
    refine ⟨w2, ?_, hk2.trans hk1, hn2.trans hn1,
      fun i => ⟨(he2 i).1.trans (he1 i).1, (he2 i).2.trans (he1 i).2⟩⟩
    simp only [List.map_cons, runEvents, h1]
    exact h2

/-- Releasing over a different knob finalizes the draft: the edge is
registered on the release knob, its knob2 is bound to it, and the
handler returns to Idle. -/
theorem eventFilter_release_knob (w : World) (eid a b : Nat) (hne : b ≠ a)
    (hfr : eid ∉ (w.knobs b).edges) :
    ∃ w1, SceneEventHandler.eventFilter (some (eid, a)) w
        (.release (some (.knob b))) = .ok (none, w1)
      ∧ (w1.knobs b).edges = (w.knobs b).edges ++ [eid]
      ∧ (∀ j, j ≠ b → w1.knobs j = w.knobs j)
      ∧ (w1.edges eid).knob1 = (w.edges eid).knob1
      ∧ (w1.edges eid).knob2 = some b
      ∧ w1.nextEdgeId = w.nextEdgeId := by
  simp only [SceneEventHandler.eventFilter]
  rw [if_neg hne]
  refine ⟨_, rfl, ?_, ?_, ?_, ?_, ?_⟩
  · simp [updatePath_knobs, setKnob2_knobs, addEdge_knobs, upd, hfr]
  · intro j hj
    simp [updatePath_knobs, setKnob2_knobs, addEdge_knobs, upd, hfr, hj]
  · simp [updatePath_edges_knob1, setKnob2_edges_knob1, addEdge_edges_knob1]
  · simp [updatePath_edges_knob2, setKnob2_edges_knob2_self]
  · simp [updatePath_nextEdgeId, Edge.setKnob2, addEdge_nextEdgeId]

/-- Releasing over the very knob the drag started on removes the draft
edge from that knob and returns to Idle. -/
theorem eventFilter_release_self (w : World) (eid a : Nat)
    (hmem : eid ∈ (w.knobs a).edges) :
    ∃ w1, SceneEventHandler.eventFilter (some (eid, a)) w
        (.release (some (.knob a))) = .ok (none, w1)
      ∧ (w1.knobs a).edges = (w.knobs a).edges.erase eid
      ∧ ∀ j, j ≠ a → w1.knobs j = w.knobs j := by
  obtain ⟨w1, h1, h2, h3, _⟩ := removeEdge_spec w a eid hmem
  refine ⟨w1, ?_, h2, h3⟩
  simp [SceneEventHandler.eventFilter, h1]

/-- Releasing over empty space or a non-knob item cancels the draft:
it is removed from the source knob and the handler returns to Idle. -/
theorem eventFilter_release_cancel (w : World) (eid a : Nat) (item : Option HitItem)
    (hitem : isKnobHit item = false) (hmem : eid ∈ (w.knobs a).edges) :
    ∃ w1, SceneEventHandler.eventFilter (some (eid, a)) w
        (.release item) = .ok (none, w1)
      ∧ (w1.knobs a).edges = (w.knobs a).edges.erase eid
      ∧ ∀ j, j ≠ a → w1.knobs j = w.knobs j := by
  obtain ⟨w1, h1, h2, h3, _⟩ := removeEdge_spec w a eid hmem
  refine ⟨w1, ?_, h2, h3⟩
  match item with
  | none => simp [SceneEventHandler.eventFilter, h1]
  | some .other => simp [SceneEventHandler.eventFilter, h1]
  | some (.knob k) => simp [isKnobHit] at hitem

/-- Effect of Knob.connectTo on two distinct knobs: exactly one fresh
edge is allocated, registered at the end of both knobs' sets, bound to
the caller as knob1 and the argument as knob2; every other knob and
every preexisting edge is untouched. -/
theorem connectTo_spec (w : World) (a b : Nat) (hba : b ≠ a)
    (ha : w.nextEdgeId ∉ (w.knobs a).edges) (hb : w.nextEdgeId ∉ (w.knobs b).edges) :
    ∃ w1, Knob.connectTo w a b = w1
      ∧ w1.nextEdgeId = w.nextEdgeId + 1
      ∧ (w1.knobs a).edges = (w.knobs a).edges ++ [w.nextEdgeId]
      ∧ (w1.knobs b).edges = (w.knobs b).edges ++ [w.nextEdgeId]
      ∧ (∀ j, j ≠ a → j ≠ b → w1.knobs j = w.knobs j)
      ∧ (w1.edges w.nextEdgeId).knob1 = some a
      ∧ (w1.edges w.nextEdgeId).knob2 = some b
      ∧ (∀ i, i ≠ w.nextEdgeId →
          (w1.edges i).knob1 = (w.edges i).knob1
          ∧ (w1.edges i).knob2 = (w.edges i).knob2
          ∧ (w1.edges i).thickness = (w.edges i).thickness) := by
  have hab : a ≠ b := Ne.symm hba
  simp only [Knob.connectTo]
  rw [if_neg hba]
  refine ⟨_, rfl, ?_, ?_, ?_, ?_, ?_, ?_, ?_⟩
  · simp [World.newEdge, Edge.setKnob1, Edge.setKnob2, Edge.updatePath, Knob.addEdge,
      Edge.init, upd, hba, hab, ha, hb]
  · simp [World.newEdge, Edge.setKnob1, Edge.setKnob2, Edge.updatePath, Knob.addEdge,
      Edge.init, upd, hba, hab, ha, hb]
  · simp [World.newEdge, Edge.setKnob1, Edge.setKnob2, Edge.updatePath, Knob.addEdge,
      Edge.init, upd, hba, hab, ha, hb]
  · intro j hja hjb
    simp [World.newEdge, Edge.setKnob1, Edge.setKnob2, Edge.updatePath, Knob.addEdge,
      Edge.init, upd, hba, hab, ha, hb, hja, hjb]
  · simp [World.newEdge, Edge.setKnob1, Edge.setKnob2, Edge.updatePath, Knob.addEdge,
      Edge.init, upd, hba, hab, ha, hb]
  · simp [World.newEdge, Edge.setKnob1, Edge.setKnob2, Edge.updatePath, Knob.addEdge,
      Edge.init, upd, hba, hab, ha, hb]
  · intro i hi
    refine ⟨?_, ?_, ?_⟩ <;>
      simp [World.newEdge, Edge.setKnob1, Edge.setKnob2, Edge.updatePath, Knob.addEdge,
        Edge.init, upd, hba, hab, ha, hb, hi]

theorem runEvents_append (t : Option (Nat × Nat)) (w : World) (l1 l2 : List SceneEvent) :
    runEvents t w (l1 ++ l2) = match runEvents t w l1 with
      | .ok (t1, w1) => runEvents t1 w1 l2
      | .error e => .error e := by
  induction l1 generalizing t w with
  | nil => rfl
  | cons ev rest ih =>
    simp only [List.cons_append, runEvents]
    match h : SceneEventHandler.eventFilter t w ev with
    | .ok (t1, w1) =>
      simp only [List.append_eq]
      exact ih t1 w1
    | .error e => rfl

/-! ### The claims -/

/-- Claim C2: for every pair of distinct Sockets A and B, the gesture
press on A, optional moves, release on B ends in the Idle state (the
handler's transient state is empty) with exactly one new Connection:
the fresh edge id is appended to both A's and B's connection sets and
to nothing else, its endpoints are knob1 = A and knob2 = B (symmetric
membership), and exactly one edge was allocated.  The freshness
hypotheses say that the next edge id is not already registered on
either knob, which holds in every world reachable from World.empty. -/
theorem claimC2_gesture_connect (w : World) (a b : Nat) (p : Point) (ms : List Point)
    (hab : a ≠ b)
    (ha : w.nextEdgeId ∉ (w.knobs a).edges) (hb : w.nextEdgeId ∉ (w.knobs b).edges) :
    ∃ w3, runEvents none w
        (SceneEvent.press true p (some (.knob a))
          :: ms.map SceneEvent.move ++ [SceneEvent.release (some (.knob b))])
        = .ok (none, w3)
      ∧ (w3.knobs a).edges = (w.knobs a).edges ++ [w.nextEdgeId]
      ∧ (w3.knobs b).edges = (w.knobs b).edges ++ [w.nextEdgeId]
      ∧ (∀ j, j ≠ a → j ≠ b → w3.knobs j = w.knobs j)
      ∧ (w3.edges w.nextEdgeId).knob1 = some a
      ∧ (w3.edges w.nextEdgeId).knob2 = some b
      ∧ w3.nextEdgeId = w.nextEdgeId + 1 := by
  have hba : b ≠ a := Ne.symm hab
  obtain ⟨w5, hp, hpa, hpj, hpk1, hpk2, hpn⟩ := eventFilter_press w a p ha
  obtain ⟨w6, hm, hmk, hmn, hme⟩ := runEvents_moves ms w.nextEdgeId a w5
  have hb6 : w.nextEdgeId ∉ (w6.knobs b).edges := by
    rw [hmk, hpj b hba]; exact hb
  obtain ⟨w7, hr, hrb, hrj, hrk1, hrk2, hrn⟩ :=
    eventFilter_release_knob w6 w.nextEdgeId a b hba hb6
  refine ⟨w7, ?_, ?_, ?_, ?_, ?_, ?_, ?_⟩
  · simp only [List.cons_append, runEvents, hp]
    simp only [List.append_eq]
    rw [runEvents_append]
    simp only [hm, runEvents, hr]
  · rw [hrj a hab, hmk, hpa]
  · rw [hrb, hmk, hpj b hba]
  · intro j hja hjb
    rw [hrj j hjb, hmk, hpj j hja]
  · rw [hrk1, (hme w.nextEdgeId).1, hpk1]
  · exact hrk2
  · rw [hrn, hmn, hpn]

/-- Claim C3: connecting a Socket to itself is a no-op, programmatically
and interactively.  Knob.connectTo with the knob itself returns the
world unchanged (no Connection is created), and the gesture press on s
then release on s ends in Idle with s's connection set exactly as
before (the draft edge added by the press is removed again by the
release).  The freshness hypothesis says the next edge id is not
already registered on the knob, which holds in every world reachable
from World.empty. -/
theorem claimC3_self_connect_noop (w : World) (s : Nat) (p : Point)
    (hfr : w.nextEdgeId ∉ (w.knobs s).edges) :
    Knob.connectTo w s s = w
    ∧ ∃ w2, runEvents none w
        [SceneEvent.press true p (some (.knob s)), SceneEvent.release (some (.knob s))]
        = .ok (none, w2)
      ∧ (w2.knobs s).edges = (w.knobs s).edges := by
  constructor
  · simp [Knob.connectTo]
  · obtain ⟨w5, hp, hpa, hpj, _, _, _⟩ := eventFilter_press w s p hfr
    have hmem : w.nextEdgeId ∈ (w5.knobs s).edges := by rw [hpa]; simp
    obtain ⟨w2, hr, hra, hrj⟩ := eventFilter_release_self w5 w.nextEdgeId s hmem
    refine ⟨w2, ?_, ?_⟩
    · simp only [runEvents, hp, hr]
    · rw [hra, hpa, erase_append_self _ _ hfr]

/-- Claim C4: press on Socket A, any number of moves, release over empty
space or a non-Socket item removes the draft Connection and returns to
Idle, leaving A's connection set (and every other knob) exactly as it
was before the press. -/
theorem claimC4_cancel_gesture (w : World) (a : Nat) (p : Point) (ms : List Point)
    (item : Option HitItem) (hitem : isKnobHit item = false)
    (hfr : w.nextEdgeId ∉ (w.knobs a).edges) :
    ∃ w2, runEvents none w
        (SceneEvent.press true p (some (.knob a))
          :: ms.map SceneEvent.move ++ [SceneEvent.release item])
        = .ok (none, w2)
      ∧ (w2.knobs a).edges = (w.knobs a).edges
      ∧ ∀ j, j ≠ a → w2.knobs j = w.knobs j := by
  obtain ⟨w5, hp, hpa, hpj, _, _, _⟩ := eventFilter_press w a p hfr
  obtain ⟨w6, hm, hmk, hmn, hme⟩ := runEvents_moves ms w.nextEdgeId a w5
  have hmem : w.nextEdgeId ∈ (w6.knobs a).edges := by rw [hmk, hpa]; simp
  obtain ⟨w2, hr, hra, hrj⟩ :=
    eventFilter_release_cancel w6 w.nextEdgeId a item hitem hmem
  refine ⟨w2, ?_, ?_, ?_⟩
  · simp only [List.cons_append, runEvents, hp]
    simp only [List.append_eq]
    rw [runEvents_append]
    simp only [hm, runEvents, hr]
  · rw [hra, hmk, hpa, erase_append_self _ _ hfr]
  · intro j hj
    rw [hrj j hj, hmk, hpj j hj]

/-- Claim C5 counterexample: disconnecting a Connection that is not
registered on the Socket does fail, but with the untyped builtin
KeyError that set.remove raises, not with a typed NotConnectedError:
no such exception class exists in the source.  Evaluated at the
concrete empty world, knob 0, edge 0. -/
theorem claimC5_counterexample :
    (0 : Nat) ∉ (World.empty.knobs 0).edges
    ∧ Knob.removeEdge World.empty 0 0 = .error PyErr.keyError
    ∧ Knob.removeEdge World.empty 0 0 ≠ .error PyErr.notConnectedError := by
  refine ⟨by decide, rfl, ?_⟩
  rw [show Knob.removeEdge World.empty 0 0 = .error PyErr.keyError from rfl]
  simp

/-- Claim C5 (amended): for every Socket and every Connection not
currently registered in that Socket's connection set, disconnect fails
with the builtin KeyError, surfaced to the caller. -/
theorem claimC5_disconnect_keyerror (w : World) (kid eid : Nat)
    (h : eid ∉ (w.knobs kid).edges) :
    Knob.removeEdge w kid eid = .error PyErr.keyError :=
  removeEdge_not_mem w kid eid h

/-- Claim C5 witness for the amended theorem at a concrete input. -/
theorem claimC5_witness :
    (0 : Nat) ∉ (World.empty.knobs 1).edges
    ∧ Knob.removeEdge World.empty 1 0 = .error PyErr.keyError :=
  ⟨by decide, claimC5_disconnect_keyerror World.empty 1 0 (by decide)⟩

/-- Claim C6: an Edge's stroke thickness is 1 times the global zoom read
once at construction.  After one zoom-in wheel step (delta nonnegative,
which multiplies the view scale by 1.1 and publishes it), a newly
constructed Edge has thickness 1 times the previous zoom times 11/10,
while the wheel event changes no existing Edge at all, and the
construction of the new Edge leaves every other Edge's thickness
unchanged.  The hypothesis that the published zoom agrees with the view
transform's horizontal scale holds initially (both are 1) and is
preserved by every wheel event. -/
theorem claimC6_zoom_thickness (w : World) (delta : Int)
    (hz : w.currentZoom = w.m11) (hd : 0 ≤ delta) :
    ((World.newEdge (GridView.wheelEvent w delta)).1.edges
        (World.newEdge (GridView.wheelEvent w delta)).2).thickness
      = 1 * w.currentZoom * (11/10)
    ∧ (∀ e, (GridView.wheelEvent w delta).edges e = w.edges e)
    ∧ (∀ e, e ≠ (World.newEdge (GridView.wheelEvent w delta)).2 →
        ((World.newEdge (GridView.wheelEvent w delta)).1.edges e).thickness
          = (w.edges e).thickness) := by
  refine ⟨?_, fun e => rfl, ?_⟩
  · simp only [GridView.wheelEvent, GridView.zoomStep, if_pos hd, World.newEdge,
      upd_self, Edge.init, hz]
    ring
  · intro e he
    have he2 : e ≠ w.nextEdgeId := he
    simp [World.newEdge, upd, he2, GridView.wheelEvent]

/-- Claim C7: updatePath on an Edge whose endpoints are both bound (and
whose curvature coefficients are the ones Edge construction always
assigns) sets the path to the single cubic from endpoint A's scene
anchor p1 (knobAnchor: the socket's bounding-rect center mapped to
scene coordinates) to endpoint B's anchor p2, with control points
(p1 + 0.6 dx, p1 + 0.2 dy) and (p1 + 0.4 dx, p1 + 0.8 dy) where
(dx, dy) = p2 - p1. -/
theorem claimC7_updatePath_cubic (w : World) (eid a b : Nat)
    (h1 : (w.edges eid).knob1 = some a) (h2 : (w.edges eid).knob2 = some b)
    (hc1 : (w.edges eid).curv1 = 6/10) (hc2 : (w.edges eid).curv2 = 2/10)
    (hc3 : (w.edges eid).curv3 = 4/10) (hc4 : (w.edges eid).curv4 = 8/10) :
    ((Edge.updatePath w eid).edges eid).path = some
      { start := knobAnchor w a
        ctrl1 := ⟨(knobAnchor w a).x + ((knobAnchor w b).x - (knobAnchor w a).x) * (6/10),
                  (knobAnchor w a).y + ((knobAnchor w b).y - (knobAnchor w a).y) * (2/10)⟩
        ctrl2 := ⟨(knobAnchor w a).x + ((knobAnchor w b).x - (knobAnchor w a).x) * (4/10),
                  (knobAnchor w a).y + ((knobAnchor w b).y - (knobAnchor w a).y) * (8/10)⟩
        stop := knobAnchor w b } := by
  simp [Edge.updatePath, upd, h1, h2, Edge.buildPath, hc1, hc2, hc3, hc4]

/-- Claim C8: for an Edge with both endpoints bound, updatePath is
idempotent: a second call with the endpoints unchanged produces exactly
the same path (same start, end and control points) and the same cached
endpoint positions as the first call. -/
theorem claimC8_updatePath_idempotent (w : World) (eid a b : Nat)
    (h1 : (w.edges eid).knob1 = some a) (h2 : (w.edges eid).knob2 = some b) :
    ((Edge.updatePath (Edge.updatePath w eid) eid).edges eid).path
      = ((Edge.updatePath w eid).edges eid).path
    ∧ ((Edge.updatePath (Edge.updatePath w eid) eid).edges eid).pos1
      = ((Edge.updatePath w eid).edges eid).pos1
    ∧ ((Edge.updatePath (Edge.updatePath w eid) eid).edges eid).pos2
      = ((Edge.updatePath w eid).edges eid).pos2 := by
  refine ⟨?_, ?_, ?_⟩ <;>
    simp [Edge.updatePath, upd, h1, h2, knobAnchor, Edge.buildPath]

/-- Claim C9: a Knob (or InputKnob) constructed with an explicit margin
keyword argument gets that very value as its flow attribute, because
line 43 of restart.py reads the margin kwarg instead of a flow kwarg;
consequently, whenever that value differs from both recognized flow
strings, the flow dispatch in paint raises UnknownFlowError. -/
theorem claimC9_margin_becomes_flow (kw : KnobKwargs) (m : PyVal)
    (h : kw.margin = some m) :
    (Knob.init kw).flow = m
    ∧ (InputKnob.init kw).flow = m
    ∧ (m ≠ .str FLOW_LEFT_TO_RIGHT → m ≠ .str FLOW_RIGHT_TO_LEFT →
        ∀ textWidth : Int,
          Knob.paintLabelX (Knob.init kw) textWidth = .error PyErr.unknownFlowError
          ∧ Knob.paintLabelX (InputKnob.init kw) textWidth
              = .error PyErr.unknownFlowError) := by
  refine ⟨by simp [Knob.init, h], by simp [InputKnob.init, Knob.init, h], ?_⟩
  intro hL hR textWidth
  constructor <;>
    simp [Knob.paintLabelX, Knob.init, InputKnob.init, h, hL, hR]

/-- Claim C10: connectTo does not deduplicate: calling it twice on the
same distinct pair first allocates edge e1, then a distinct edge e2;
afterwards both knobs' connection sets contain exactly the two distinct
new edges, each of which links A (knob1) to B (knob2). -/
theorem claimC10_connect_not_idempotent (w : World) (a b : Nat) (hab : a ≠ b)
    (ha1 : w.nextEdgeId ∉ (w.knobs a).edges)
    (hb1 : w.nextEdgeId ∉ (w.knobs b).edges)
    (ha2 : w.nextEdgeId + 1 ∉ (w.knobs a).edges)
    (hb2 : w.nextEdgeId + 1 ∉ (w.knobs b).edges) :
    w.nextEdgeId ≠ w.nextEdgeId + 1
    ∧ ((Knob.connectTo (Knob.connectTo w a b) a b).knobs a).edges
        = (w.knobs a).edges ++ [w.nextEdgeId, w.nextEdgeId + 1]
    ∧ ((Knob.connectTo (Knob.connectTo w a b) a b).knobs b).edges
        = (w.knobs b).edges ++ [w.nextEdgeId, w.nextEdgeId + 1]
    ∧ ((Knob.connectTo (Knob.connectTo w a b) a b).edges w.nextEdgeId).knob1 = some a
    ∧ ((Knob.connectTo (Knob.connectTo w a b) a b).edges w.nextEdgeId).knob2 = some b
    ∧ ((Knob.connectTo (Knob.connectTo w a b) a b).edges (w.nextEdgeId + 1)).knob1 = some a
    ∧ ((Knob.connectTo (Knob.connectTo w a b) a b).edges (w.nextEdgeId + 1)).knob2 = some b := by
  have hba : b ≠ a := Ne.symm hab
  obtain ⟨w1, he1, hn1, ha1e, hb1e, hj1, hk11, hk12, hold1⟩ :=
    connectTo_spec w a b hba ha1 hb1
  have ha2f : w1.nextEdgeId ∉ (w1.knobs a).edges := by
    rw [hn1, ha1e]
    simp [ha2]
  have hb2f : w1.nextEdgeId ∉ (w1.knobs b).edges := by
    rw [hn1, hb1e]
    simp [hb2]
  obtain ⟨w2, he2, hn2, ha2e, hb2e, hj2, hk21, hk22, hold2⟩ :=
    connectTo_spec w1 a b hba ha2f hb2f
  have hfresh : w.nextEdgeId ≠ w1.nextEdgeId := by
    rw [hn1]
    exact Nat.ne_of_lt (Nat.lt_succ_self _)
  rw [he1, he2]
  refine ⟨Nat.ne_of_lt (Nat.lt_succ_self _), ?_, ?_, ?_, ?_, ?_, ?_⟩
  · rw [ha2e, ha1e, hn1, List.append_assoc]
    rfl
  · rw [hb2e, hb1e, hn1, List.append_assoc]
    rfl
  · rw [(hold2 w.nextEdgeId hfresh).1, hk11]
  · rw [(hold2 w.nextEdgeId hfresh).2.1, hk12]
  · rw [← hn1]
    exact hk21
  · rw [← hn1]
    exact hk22

theorem le_foldl_max_init (a : Int) (l : List Int) : a ≤ l.foldl max a := by
  induction l generalizing a with
  | nil => exact le_refl a
  | cons x xs ih => exact le_trans (le_max_left a x) (ih (max a x))

theorem le_foldl_max_mem (a x : Int) (l : List Int) (h : x ∈ l) : x ≤ l.foldl max a := by
  induction l generalizing a with
  | nil => cases h
  | cons y ys ih =>
    rcases List.mem_cons.mp h with h1 | h2
    · subst h1
      exact le_trans (le_max_right a x) (le_foldl_max_init _ ys)
    · exact ih (max a y) h2

/-- Claim C1 counterexample: the claimed width formula puts a margin in
front of every socket term; the code does not.  Concretely, with
one-pixel-per-character text metrics, a node with margin 6, title "T"
(width 1) and one knob of width 10 labelled "valuevalue" (width 10) is
relaid out to width 32 after addKnob, while the claimed formula margin
+ max(titleWidth, knobWidth + margin + labelWidth) + margin gives 38,
and the claimed per-socket lower bound margin + socket.width + margin +
label.width + margin = 38 exceeds the actual width. -/
theorem claimC1_counterexample :
    (((Node.addHeader twLen Node.init ⟨"T", 20⟩).bind
        (fun n1 => Node.addKnob twLen n1 ⟨10, 10, "valuevalue"⟩)).map (fun n => n.w))
      = some 32
    ∧ claimWidthC1 6 (twLen "T") [10 + 6 + twLen "valuevalue"] = 38
    ∧ ¬ (32 ≥ 6 + 10 + 6 + twLen "valuevalue" + 6) := by
  refine ⟨by decide, by decide, by decide⟩

/-- Claim C1 (amended): after addKnob or addHeader the recomputed width
equals max(margin + titleNaturalWidth, max over sockets of
(socket.width + margin + labelNaturalWidth)) + margin: the title term
carries the leading margin, the socket terms do not.  Consequently
width is at least margin + titleNaturalWidth + margin, and for every
socket at least socket.width + margin + label.width + margin (one
margin less than the claim stated). -/
theorem claimC1_amended_width (tw : String → Int) (n : NodeL) (hd : HeaderL) (k : KnobL)
    (hh : n.header = some hd) :
    (∃ n2, Node.addKnob tw n k = some n2
      ∧ n2.w = ((n.knobs ++ [k]).map (fun s => s.w + n.margin + tw s.labelText)).foldl
          max (n.margin + tw hd.text) + n.margin
      ∧ n2.w ≥ n.margin + tw hd.text + n.margin
      ∧ ∀ s ∈ n2.knobs, n2.w ≥ s.w + n.margin + tw s.labelText + n.margin)
    ∧ (∀ hd2 : HeaderL, ∃ n2, Node.addHeader tw n hd2 = some n2
      ∧ n2.w = (n.knobs.map (fun s => s.w + n.margin + tw s.labelText)).foldl
          max (n.margin + tw hd2.text) + n.margin
      ∧ n2.w ≥ n.margin + tw hd2.text + n.margin
      ∧ ∀ s ∈ n2.knobs, n2.w ≥ s.w + n.margin + tw s.labelText + n.margin) := by
  constructor
  · have hk : Node.addKnob tw n k = some
        { n with
            knobs := n.knobs ++ [k]
            w := ((n.knobs ++ [k]).map (fun s => s.w + n.margin + tw s.labelText)).foldl
                max (n.margin + tw hd.text) + n.margin
            h := hd.h + ((n.knobs ++ [k]).map (fun s => s.h + n.margin)).sum + n.margin } := by
      simp only [Node.addKnob, Node.updateSizeForChildren, hh]
    refine ⟨_, hk, rfl, ?_, ?_⟩
    · exact add_le_add_right (le_foldl_max_init _ _) n.margin
    · intro s hs
      refine add_le_add_right (le_foldl_max_mem _ _ _ ?_) n.margin
      exact List.mem_map.mpr ⟨s, hs, rfl⟩
  · intro hd2
    have hk : Node.addHeader tw n hd2 = some
        { n with
            header := some hd2
            w := (n.knobs.map (fun s => s.w + n.margin + tw s.labelText)).foldl
                max (n.margin + tw hd2.text) + n.margin
            h := hd2.h + (n.knobs.map (fun s => s.h + n.margin)).sum + n.margin } := by
      simp only [Node.addHeader, Node.updateSizeForChildren]
    refine ⟨_, hk, rfl, ?_, ?_⟩
    · exact add_le_add_right (le_foldl_max_init _ _) n.margin
    · intro s hs
      refine add_le_add_right (le_foldl_max_mem _ _ _ ?_) n.margin
      exact List.mem_map.mpr ⟨s, hs, rfl⟩

/-! ### Concrete witnesses -/

/-- Claim C1 witness: the amended width theorem evaluated on the
concrete node wNode and a knob of width 10 labelled "x". -/
theorem claimC1_witness :
    wNode.header = some ⟨"T", 20⟩
    ∧ ((∃ n2, Node.addKnob twLen wNode ⟨10, 10, "x"⟩ = some n2
        ∧ n2.w = ((wNode.knobs ++ ([⟨10, 10, "x"⟩] : List KnobL)).map
            (fun s => s.w + wNode.margin + twLen s.labelText)).foldl
            max (wNode.margin + twLen "T") + wNode.margin
        ∧ n2.w ≥ wNode.margin + twLen "T" + wNode.margin
        ∧ ∀ s ∈ n2.knobs, n2.w ≥ s.w + wNode.margin + twLen s.labelText + wNode.margin)
      ∧ (∀ hd2 : HeaderL, ∃ n2, Node.addHeader twLen wNode hd2 = some n2
        ∧ n2.w = (wNode.knobs.map
            (fun s => s.w + wNode.margin + twLen s.labelText)).foldl
            max (wNode.margin + twLen hd2.text) + wNode.margin
        ∧ n2.w ≥ wNode.margin + twLen hd2.text + wNode.margin
        ∧ ∀ s ∈ n2.knobs, n2.w ≥ s.w + wNode.margin + twLen s.labelText + wNode.margin)) :=
  ⟨rfl, claimC1_amended_width twLen wNode ⟨"T", 20⟩ ⟨10, 10, "x"⟩ rfl⟩

/-- Claim C2 witness: the finalize gesture evaluated on World.empty with
knobs 0 and 1 and one intervening move. -/
theorem claimC2_witness :
    (0 : Nat) ≠ 1
    ∧ (0 : Nat) ∉ (World.empty.knobs 0).edges
    ∧ (0 : Nat) ∉ (World.empty.knobs 1).edges
    ∧ ∃ w3, runEvents none World.empty
        [SceneEvent.press true ⟨0, 0⟩ (some (.knob 0)),
         SceneEvent.move ⟨3, 4⟩,
         SceneEvent.release (some (.knob 1))]
        = .ok (none, w3)
      ∧ (w3.knobs 0).edges = [0]
      ∧ (w3.knobs 1).edges = [0]
      ∧ (∀ j, j ≠ 0 → j ≠ 1 → w3.knobs j = World.empty.knobs j)
      ∧ (w3.edges 0).knob1 = some 0
      ∧ (w3.edges 0).knob2 = some 1
      ∧ w3.nextEdgeId = 1 :=
  ⟨by decide, by decide, by decide,
    claimC2_gesture_connect World.empty 0 1 ⟨0, 0⟩ [⟨3, 4⟩]
      (by decide) (by decide) (by decide)⟩

/-- Claim C3 witness: self-connection evaluated on World.empty, knob 2. -/
theorem claimC3_witness :
    (0 : Nat) ∉ (World.empty.knobs 2).edges
    ∧ (Knob.connectTo World.empty 2 2 = World.empty
      ∧ ∃ w2, runEvents none World.empty
          [SceneEvent.press true ⟨1, 1⟩ (some (.knob 2)),
           SceneEvent.release (some (.knob 2))]
          = .ok (none, w2)
        ∧ (w2.knobs 2).edges = []) :=
  ⟨by decide, claimC3_self_connect_noop World.empty 2 ⟨1, 1⟩ (by decide)⟩

/-- Claim C4 witness: the cancel gesture evaluated on World.empty, knob
0, one move, release over empty space. -/
theorem claimC4_witness :
    isKnobHit none = false
    ∧ (0 : Nat) ∉ (World.empty.knobs 0).edges
    ∧ ∃ w2, runEvents none World.empty
        [SceneEvent.press true ⟨0, 0⟩ (some (.knob 0)),
         SceneEvent.move ⟨2, 2⟩,
         SceneEvent.release none]
        = .ok (none, w2)
      ∧ (w2.knobs 0).edges = []
      ∧ ∀ j, j ≠ 0 → w2.knobs j = World.empty.knobs j :=
  ⟨rfl, by decide,
    claimC4_cancel_gesture World.empty 0 ⟨0, 0⟩ [⟨2, 2⟩] none rfl (by decide)⟩

/-- Claim C6 witness: one zoom-in step from the initial world. -/
theorem claimC6_witness :
    World.empty.currentZoom = World.empty.m11
    ∧ (0 : Int) ≤ 3
    ∧ (((World.newEdge (GridView.wheelEvent World.empty 3)).1.edges
          (World.newEdge (GridView.wheelEvent World.empty 3)).2).thickness
        = 1 * World.empty.currentZoom * (11/10)
      ∧ (∀ e, (GridView.wheelEvent World.empty 3).edges e = World.empty.edges e)
      ∧ (∀ e, e ≠ (World.newEdge (GridView.wheelEvent World.empty 3)).2 →
          ((World.newEdge (GridView.wheelEvent World.empty 3)).1.edges e).thickness
            = (World.empty.edges e).thickness)) :=
  ⟨rfl, by decide, claimC6_zoom_thickness World.empty 3 rfl (by decide)⟩

/-- Claim C7 witness: updatePath evaluated on the concrete world wSeven. -/
theorem claimC7_witness :
    (wSeven.edges 0).knob1 = some 0
    ∧ (wSeven.edges 0).knob2 = some 1
    ∧ ((Edge.updatePath wSeven 0).edges 0).path = some
        { start := knobAnchor wSeven 0
          ctrl1 := ⟨(knobAnchor wSeven 0).x
                      + ((knobAnchor wSeven 1).x - (knobAnchor wSeven 0).x) * (6/10),
                    (knobAnchor wSeven 0).y
                      + ((knobAnchor wSeven 1).y - (knobAnchor wSeven 0).y) * (2/10)⟩
          ctrl2 := ⟨(knobAnchor wSeven 0).x
                      + ((knobAnchor wSeven 1).x - (knobAnchor wSeven 0).x) * (4/10),
                    (knobAnchor wSeven 0).y
                      + ((knobAnchor wSeven 1).y - (knobAnchor wSeven 0).y) * (8/10)⟩
          stop := knobAnchor wSeven 1 } :=
  ⟨rfl, rfl, claimC7_updatePath_cubic wSeven 0 0 1 rfl rfl rfl rfl rfl rfl⟩

/-- Claim C8 witness: idempotence of updatePath on the concrete world
wSeven. -/
theorem claimC8_witness :
    (wSeven.edges 0).knob1 = some 0
    ∧ (wSeven.edges 0).knob2 = some 1
    ∧ (((Edge.updatePath (Edge.updatePath wSeven 0) 0).edges 0).path
        = ((Edge.updatePath wSeven 0).edges 0).path
      ∧ ((Edge.updatePath (Edge.updatePath wSeven 0) 0).edges 0).pos1
        = ((Edge.updatePath wSeven 0).edges 0).pos1
      ∧ ((Edge.updatePath (Edge.updatePath wSeven 0) 0).edges 0).pos2
        = ((Edge.updatePath wSeven 0).edges 0).pos2) :=
  ⟨rfl, rfl, claimC8_updatePath_idempotent wSeven 0 0 1 rfl rfl⟩

/-- Claim C9 witness: constructing a Knob with margin = 7 puts the
integer 7 into flow, and painting it raises UnknownFlowError. -/
theorem claimC9_witness :
    ({ margin := some (.int 7) } : KnobKwargs).margin = some (.int 7)
    ∧ (Knob.init { margin := some (.int 7) }).flow = .int 7
    ∧ Knob.paintLabelX (Knob.init { margin := some (.int 7) }) 12
        = .error PyErr.unknownFlowError := by
  refine ⟨rfl, ?_, ?_⟩
  · exact (claimC9_margin_becomes_flow { margin := some (.int 7) } (.int 7) rfl).1
  · exact ((claimC9_margin_becomes_flow { margin := some (.int 7) } (.int 7) rfl).2.2
      (by decide) (by decide) 12).1

/-- Claim C10 witness: two connectTo calls on World.empty with knobs 0
and 1 leave two distinct edges on both knobs. -/
theorem claimC10_witness :
    (0 : Nat) ≠ 1
    ∧ (0 : Nat) ∉ (World.empty.knobs 0).edges
    ∧ (1 : Nat) ∉ (World.empty.knobs 0).edges
    ∧ ((0 : Nat) ≠ 0 + 1
      ∧ ((Knob.connectTo (Knob.connectTo World.empty 0 1) 0 1).knobs 0).edges = [0, 1]
      ∧ ((Knob.connectTo (Knob.connectTo World.empty 0 1) 0 1).knobs 1).edges = [0, 1]
      ∧ ((Knob.connectTo (Knob.connectTo World.empty 0 1) 0 1).edges 0).knob1 = some 0
      ∧ ((Knob.connectTo (Knob.connectTo World.empty 0 1) 0 1).edges 0).knob2 = some 1
      ∧ ((Knob.connectTo (Knob.connectTo World.empty 0 1) 0 1).edges 1).knob1 = some 0
      ∧ ((Knob.connectTo (Knob.connectTo World.empty 0 1) 0 1).edges 1).knob2 = some 1) :=
  ⟨by decide, by decide, by decide,
    claimC10_connect_not_idempotent World.empty 0 1
      (by decide) (by decide) (by decide) (by decide) (by decide)⟩

end QtNodes
